import Mathlib

/-!
Verification of the `ella` synapse core: session context (`synapse-engine`),
Flight-SQL adapter and remote client (`synapse-server`).

The Rust sources are embedded shallowly: pure or lock-protected state updates
become explicit state passing; fallible operations return `Except`; byte
strings are `List Nat`.  Each definition mirrors the corresponding source
function; parts of the repository outside the provided sources (ticket
tracker internals, topic publisher, the external arrow-flight helpers) are
modelled from the specification's interface description and marked as such.
-/

namespace Synapse

/-- Namespace identifiers (`registry::Id`): UTF-8 names compared as strings. -/
abbrev Id := String

/-- Error kinds of the engine (`EngineError`), restricted to the variants the
claims mention. -/
inductive EngineError
  | CatalogNotFound (name : String)
  | SchemaNotFound (name : String)
  | TableNotFound (name : String)
deriving DecidableEq

/-- A catalog: we track only its set of schema names, which is all the
context-level operations inspect (`SynapseCatalog::schema`). -/
structure SynapseCatalog where
  schemas : List Id
deriving DecidableEq

/-- `SynapseCatalog::schema(name)`: lookup of a schema by name. -/
def SynapseCatalog.schema (c : SynapseCatalog) (s : Id) : Option Id :=
  c.schemas.find? (fun x => x == s)

/-- The cluster: a mapping from catalog names to catalogs
(`SynapseCluster`). -/
structure SynapseCluster where
  catalogs : List (Id × SynapseCatalog)
deriving DecidableEq

/-- `SynapseCluster::catalog(name)`: lookup of a catalog by name. -/
def SynapseCluster.catalog (cl : SynapseCluster) (c : Id) : Option SynapseCatalog :=
  (cl.catalogs.find? (fun p => p.1 == c)).map Prod.snd

/-- `SynapseConfig`: the session configuration record.  Besides the two
defaults it carries further engine knobs, opaque to the context operations;
they are kept abstract as `knobs` to show updates leave them intact. -/
structure SynapseConfig where
  default_catalog : Id
  default_schema : Id
  knobs : List (String × String)
deriving DecidableEq

/-- `config.clone().into_builder().default_catalog(c).build()`: a builder
round-trip that replaces only the default catalog. -/
def SynapseConfig.withDefaultCatalog (cfg : SynapseConfig) (c : Id) : SynapseConfig :=
  { cfg with default_catalog := c }

/-- `config.clone().into_builder().default_schema(s).build()`. -/
def SynapseConfig.withDefaultSchema (cfg : SynapseConfig) (s : Id) : SynapseConfig :=
  { cfg with default_schema := s }

/-- `SynapseState`: shared cluster plus the session `Config` (the config is
swapped atomically by `with_config`; we pass the state explicitly). -/
structure SynapseState where
  cluster : SynapseCluster
  config : SynapseConfig
deriving DecidableEq

/-- `SynapseState::with_config`: replace the configuration record. -/
def SynapseState.with_config (st : SynapseState) (cfg : SynapseConfig) : SynapseState :=
  { st with config := cfg }

/-- `SynapseState::default_catalog`. -/
def SynapseState.default_catalog (st : SynapseState) : Id :=
  st.config.default_catalog

/-- `SynapseState::default_schema`. -/
def SynapseState.default_schema (st : SynapseState) : Id :=
  st.config.default_schema

/-- Modelled from the spec: `Engine` (the engine module is not among the
provided sources).  The only behavior `SynapseContext::shutdown` depends on
is the outcome of the `Engine::shutdown` teardown, kept abstract here. -/
structure Engine where
  shutdownResult : Except EngineError Unit

/-- `SynapseContext`: shared state plus the engine slot
(`Arc<Mutex<Option<Engine>>>`), modelled as an explicit `Option`. -/
structure SynapseContext where
  state : SynapseState
  engine : Option Engine

/-- `SynapseContext::default_catalog`. -/
def SynapseContext.default_catalog (ctx : SynapseContext) : Id :=
  ctx.state.default_catalog

/-- `SynapseContext::default_schema`. -/
def SynapseContext.default_schema (ctx : SynapseContext) : Id :=
  ctx.state.default_schema

/-- `SynapseContext::use_catalog`: verify the catalog exists, then install a
config with the new default catalog.  The second component is the session
state as observable after the call (the state is shared in the source, so an
early error return leaves it untouched). -/
def SynapseContext.use_catalog (ctx : SynapseContext) (catalog : Id) :
    Except EngineError SynapseContext × SynapseState :=
  match ctx.state.cluster.catalog catalog with
  | none => (.error (.CatalogNotFound catalog), ctx.state)
  | some _ =>
    let config := ctx.state.config.withDefaultCatalog catalog
    let state := ctx.state.with_config config
    (.ok { ctx with state := state }, state)

/-- `SynapseContext::use_schema`: resolve the current default catalog (its
absence is `CatalogNotFound` on the default catalog's name), verify the
schema exists inside it, then install a config with the new default schema. -/
def SynapseContext.use_schema (ctx : SynapseContext) (schema : Id) :
    Except EngineError SynapseContext × SynapseState :=
  match ctx.state.cluster.catalog ctx.state.default_catalog with
  | none => (.error (.CatalogNotFound ctx.state.default_catalog), ctx.state)
  | some cat =>
    match cat.schema schema with
    | none => (.error (.SchemaNotFound schema), ctx.state)
    | some _ =>
      let config := ctx.state.config.withDefaultSchema schema
      let state := ctx.state.with_config config
      (.ok { ctx with state := state }, state)

/-- One `SynapseContext::shutdown` call: take the engine slot under the lock
(`std::mem::take` leaves `None`); if an engine was present run its teardown
and propagate the result, otherwise return `Ok` at once.  Returns the call
result, the context afterwards, and whether `Engine::shutdown` ran. -/
def SynapseContext.shutdownStep (ctx : SynapseContext) :
    Except EngineError Unit × SynapseContext × Bool :=
  match ctx.engine with
  | some engine => (engine.shutdownResult, { ctx with engine := none }, true)
  | none => (.ok (), ctx, false)

/-- A sequence of `n` consecutive `shutdown` calls on one context, recording
for each call its result and whether the teardown executed. -/
def runShutdowns (ctx : SynapseContext) : Nat → List (Except EngineError Unit × Bool)
  | 0 => []
  | n + 1 =>
    match ctx.shutdownStep with
    | (res, ctx', ran) => (res, ran) :: runShutdowns ctx' n

/-- Arrow schemas are opaque to the claims; we track a list of field names. -/
structure ArrowSchema where
  fields : List String
deriving DecidableEq

/-- A pending query task (`Task`): result schema, orderedness and the
optional row/byte estimates derived from the plan.  Its record-batch stream
is irrelevant to the claims here. -/
structure Task where
  schema : ArrowSchema
  ordered : Bool
  num_rows : Option Nat
  byte_size : Option Nat
deriving DecidableEq

/-- Ticket handles are opaque bytes (`SynapseTicket` serialized). -/
abbrev TicketBytes := List Nat

/-- Modelled from the spec: the ticket tracker (`TicketTracker` in
`synapse-server/src/ticket.rs`, not among the provided sources) is a shared
mapping from tickets to pending tasks. -/
structure TicketTracker where
  tasks : List (TicketBytes × Task)
deriving DecidableEq

/-- Well-formedness of the tracker: ticket keys are pairwise distinct (each
ticket "binds to exactly one pending task" and `insert_new` keeps keys
unique). -/
def TicketTracker.WF (tr : TicketTracker) : Prop :=
  (tr.tasks.map Prod.fst).Nodup

instance (tr : TicketTracker) : Decidable tr.WF :=
  inferInstanceAs (Decidable ((tr.tasks.map Prod.fst).Nodup))

/-- Modelled from the spec: `take(ticket)` atomically removes and returns
the task bound to the ticket ("remove if present" on the shared map). -/
def takeAssoc : List (TicketBytes × Task) → TicketBytes →
    Option Task × List (TicketBytes × Task)
  | [], _ => (none, [])
  | p :: ps, t =>
    if p.1 = t then (some p.2, ps)
    else
      match takeAssoc ps t with
      | (r, ps') => (r, p :: ps')

/-- `TicketTracker::take`. -/
def TicketTracker.take (tr : TicketTracker) (t : TicketBytes) :
    Option Task × TicketTracker :=
  match takeAssoc tr.tasks t with
  | (r, rest) => (r, ⟨rest⟩)

/-- Whether a ticket is currently bound in the tracker. -/
def TicketTracker.hasTicket (tr : TicketTracker) (t : TicketBytes) : Bool :=
  tr.tasks.any (fun p => p.1 = t)

/-- Modelled from the spec: TTL eviction drops an unconsumed ticket from the
mapping (the dropped task is not returned to anyone). -/
def TicketTracker.evict (tr : TicketTracker) (t : TicketBytes) : TicketTracker :=
  (tr.take t).2

/-- Outcome of a `DoGet` against the tracker: either the encoded
record-batch stream of the consumed task, or gRPC `not_found`. -/
inductive DoGetResult
  | stream (task : Task)
  | notFound
deriving DecidableEq

/-- `SynapseSqlService::take_ticket`: consume the ticket; on `Some(task)`
build the encoded stream from the task, on `None` answer
`Status::not_found`.  Returns the response and the tracker afterwards. -/
def take_ticket (tr : TicketTracker) (t : TicketBytes) : DoGetResult × TicketTracker :=
  match tr.take t with
  | (some task, tr') => (.stream task, tr')
  | (none, tr') => (.notFound, tr')

/-- Wire commands wrapped in a protobuf `Any` envelope.  The prost encoding
is injective per message type; we keep the envelope symbolic instead of
spelling out the byte-level encoding. -/
inductive AnyCmd
  | ticketStatementQuery (statement_handle : TicketBytes)
  | commandGetSqlInfo (info : List Nat)
deriving DecidableEq

/-- Flight descriptors are opaque to the claims. -/
abbrev FlightDescriptor := List Nat

/-- `FlightEndpoint`: a ticket plus locations. -/
structure FlightEndpoint where
  ticket : Option AnyCmd
  location : List String
deriving DecidableEq

/-- `FlightInfo` with the fields the adapter populates.  `FlightInfo::new`
leaves the schema empty, no endpoints, unordered, and the totals at the
sentinel `-1` (unknown). -/
structure FlightInfo where
  schema : Option ArrowSchema := none
  endpoints : List FlightEndpoint := []
  ordered : Bool := false
  total_records : Int := -1
  total_bytes : Int := -1
  descriptor : Option FlightDescriptor := none
deriving DecidableEq

/-- `FlightInfo::new()`. -/
def FlightInfo.new : FlightInfo := {}

/-- `FlightInfo::try_with_schema` (IPC serialization of the schema always
succeeds for well-formed schemas; we record the schema itself). -/
def FlightInfo.try_with_schema (info : FlightInfo) (s : ArrowSchema) : FlightInfo :=
  { info with schema := some s }

/-- `FlightInfo::with_endpoint`: append one endpoint. -/
def FlightInfo.with_endpoint (info : FlightInfo) (ep : FlightEndpoint) : FlightInfo :=
  { info with endpoints := info.endpoints ++ [ep] }

/-- `FlightInfo::with_ordered`. -/
def FlightInfo.with_ordered (info : FlightInfo) (b : Bool) : FlightInfo :=
  { info with ordered := b }

/-- `FlightInfo::with_total_records`. -/
def FlightInfo.with_total_records (info : FlightInfo) (n : Int) : FlightInfo :=
  { info with total_records := n }

/-- `FlightInfo::with_total_bytes`. -/
def FlightInfo.with_total_bytes (info : FlightInfo) (n : Int) : FlightInfo :=
  { info with total_bytes := n }

/-- `FlightInfo::with_descriptor`. -/
def FlightInfo.with_descriptor (info : FlightInfo) (d : FlightDescriptor) : FlightInfo :=
  { info with descriptor := some d }

/-- The Rust `as i64` cast from `u64`: reinterpret modulo `2 ^ 64`. -/
def i64OfU64 (n : Nat) : Int :=
  if n % 2 ^ 64 < 2 ^ 63 then ((n % 2 ^ 64 : Nat) : Int)
  else ((n % 2 ^ 64 : Nat) : Int) - 2 ^ 64

/-- `SynapseSqlService::sql_query`, after `put_sql` has produced the ticket
bytes and the task: wrap the ticket in a `TicketStatementQuery`, build the
single endpoint, and populate the `FlightInfo` from the task. -/
def sql_query (ticket : TicketBytes) (task : Task) : FlightInfo :=
  let tsq := AnyCmd.ticketStatementQuery ticket
  let endpoint : FlightEndpoint := { ticket := some tsq, location := [] }
  let info := ((FlightInfo.new.try_with_schema task.schema).with_endpoint
      endpoint).with_ordered task.ordered
  let info :=
    match task.num_rows with
    | some rows => info.with_total_records (i64OfU64 rows)
    | none => info
  match task.byte_size with
  | some bytes => info.with_total_bytes (i64OfU64 bytes)
  | none => info

/-- `get_flight_info_statement`: `sql_query` plus the request descriptor. -/
def get_flight_info_statement (ticket : TicketBytes) (task : Task)
    (descriptor : FlightDescriptor) : FlightInfo :=
  (sql_query ticket task).with_descriptor descriptor

/-- SQL identifiers as the parser produces them (`sqlparser::ast::Ident`):
a value plus an optional quote style. -/
structure Ident where
  value : String
  quote_style : Option Char
deriving DecidableEq

/-- `Ident::new`: an unquoted identifier. -/
def Ident.new (s : String) : Ident := ⟨s, none⟩

/-- `CopyToSource`: either a relation name (`ObjectName`, a list of
identifiers) or a subquery. -/
inductive CopyToSource
  | relation (name : List Ident)
  | query
deriving DecidableEq

/-- Parsed statements, at the granularity `do_put_statement_update`
distinguishes: `COPY <source> TO <target>` versus anything else. -/
inductive Statement
  | copyTo (source : CopyToSource) (target : String)
  | otherStatement
deriving DecidableEq

/-- A record batch; only its row count and an opaque payload matter here. -/
structure RecordBatch where
  num_rows : Nat
  payload : List Nat := []
deriving DecidableEq

/-- Modelled from the spec: observable actions on a topic's publisher
(`Publisher::send` / `Publisher::flush`, whose implementation is not among
the provided sources).  `send` must not drop or reorder batches; we record
the calls the handler makes, in order. -/
inductive PublishEvent
  | send (topic : String) (batch : RecordBatch)
  | flush (topic : String)
deriving DecidableEq

/-- Outcome of `do_put_statement_update`: the returned row count, a parse
error, or a panic (`todo!()` on reserved forms, `unwrap` on a missing
topic), which aborts the call before any result is produced. -/
inductive UpdateOutcome
  | ok (rows : Int)
  | parseError
  | panicked
deriving DecidableEq

/-- The ingestion loop of `do_put_statement_update`: for each batch from the
stream, add its row count and send it to the publisher.  Returns the final
count and the `send` calls in order. -/
def copy_loop (target : String) : List RecordBatch → Nat → Nat × List PublishEvent
  | [], rows => (rows, [])
  | b :: bs, rows =>
    match copy_loop target bs (rows + b.num_rows) with
    | (r, es) => (r, .send target b :: es)

/-- `do_put_statement_update`: parse the update SQL (`stmt` is the parser's
result; `none` is a parse error).  Exactly the form
`COPY this TO <target>` — source a single unquoted identifier `this` — runs
the ingestion loop against the target topic's publisher and returns the row
count (`rows as i64`), after awaiting `flush`; a missing topic panics on
`unwrap`, and every other statement form hits `todo!()`. -/
def do_put_statement_update (topics : List String) (stmt : Option Statement)
    (batches : List RecordBatch) : UpdateOutcome × List PublishEvent :=
  match stmt with
  | none => (.parseError, [])
  | some (.copyTo (.relation idents) target) =>
    if idents = [Ident.new "this"] then
      if topics.contains target then
        match copy_loop target batches 0 with
        | (rows, events) => (.ok (i64OfU64 rows), events ++ [.flush target])
      else (.panicked, [])
    else (.panicked, [])
  | some _ => (.panicked, [])

/-- gRPC statuses, restricted to what the modelled paths produce. -/
inductive GrpcStatus
  | notFound (msg : String)
  | internal (msg : String)
deriving DecidableEq

/-- `HandshakeResponse`: protocol version plus an opaque byte payload. -/
structure HandshakeResponse where
  protocol_version : Nat
  payload : List Nat
deriving DecidableEq

/-- `do_handshake`: the server answers with a single response whose payload
is `Bytes::default()` and protocol version `0`. -/
def do_handshake : List (Except GrpcStatus HandshakeResponse) :=
  [.ok { protocol_version := 0, payload := [] }]

/-- Client-side error kinds (`ClientError`), restricted to the modelled
paths. -/
inductive ClientError
  | invalidToken
  | server (status : GrpcStatus)
  | missingHandshakeResponse
  | decodeFailure
deriving DecidableEq

/-- Whether a byte is a UTF-8 continuation byte. -/
def utf8Cont (b : Nat) : Bool := 0x80 ≤ b && b ≤ 0xBF

/-- `String::from_utf8` validity (Rust standard library): ASCII bytes, and
two, three and four byte sequences with the usual overlong and surrogate
exclusions. -/
def utf8Valid : List Nat → Bool
  | [] => true
  | b :: rest =>
    if b ≤ 0x7F then utf8Valid rest
    else if 0xC2 ≤ b && b ≤ 0xDF then
      match rest with
      | c :: rest => utf8Cont c && utf8Valid rest
      | [] => false
    else if b = 0xE0 then
      match rest with
      | c :: d :: rest => (0xA0 ≤ c && c ≤ 0xBF) && utf8Cont d && utf8Valid rest
      | _ => false
    else if (0xE1 ≤ b && b ≤ 0xEC) || (0xEE ≤ b && b ≤ 0xEF) then
      match rest with
      | c :: d :: rest => utf8Cont c && utf8Cont d && utf8Valid rest
      | _ => false
    else if b = 0xED then
      match rest with
      | c :: d :: rest => (0x80 ≤ c && c ≤ 0x9F) && utf8Cont d && utf8Valid rest
      | _ => false
    else if b = 0xF0 then
      match rest with
      | c :: d :: e :: rest =>
        (0x90 ≤ c && c ≤ 0xBF) && utf8Cont d && utf8Cont e && utf8Valid rest
      | _ => false
    else if 0xF1 ≤ b && b ≤ 0xF3 then
      match rest with
      | c :: d :: e :: rest => utf8Cont c && utf8Cont d && utf8Cont e && utf8Valid rest
      | _ => false
    else if b = 0xF4 then
      match rest with
      | c :: d :: e :: rest =>
        (0x80 ≤ c && c ≤ 0x8F) && utf8Cont d && utf8Cont e && utf8Valid rest
      | _ => false
    else false

/-- A Rust `String` is represented by its UTF-8 bytes. -/
abbrev RustString := List Nat

/-- The UTF-8 bytes of the literal `"Bearer "`. -/
def bearerBytes : RustString := [66, 101, 97, 114, 101, 114, 32]

/-- Valid bytes of an ASCII gRPC metadata value (tonic
`MetadataValue<Ascii>` / http header values): horizontal tab or visible
ASCII plus space. -/
def asciiMetaByte (b : Nat) : Bool := b = 9 || (32 ≤ b && b < 127)

/-- `BearerAuth::try_new`: format `"Bearer {token}"` and parse it as an
ASCII metadata value; failure is `InvalidToken`. -/
def BearerAuth.try_new (token : RustString) : Except ClientError RustString :=
  let payload := bearerBytes ++ token
  if payload.all asciiMetaByte then .ok payload else .error .invalidToken

/-- Modelled from the spec: the external arrow-flight client's `handshake`
reads the server's response stream and yields the token payload of its
first message (an empty stream or status is an error). -/
def clientHandshake (responses : List (Except GrpcStatus HandshakeResponse)) :
    Except ClientError RustString :=
  match responses with
  | [] => .error .missingHandshakeResponse
  | .ok r :: _ => .ok r.payload
  | .error e :: _ => .error (.server e)

/-- The connection state `SynapseClient::connect` establishes: the token
installed on the Flight client (`set_token`) and the `BearerAuth`
interceptor payload for the engine service. -/
structure ClientConn where
  flight_token : RustString
  auth_header : RustString
deriving DecidableEq

/-- `SynapseClient::connect`: handshake, decode the payload as UTF-8
(`InvalidToken` otherwise), install the token on the Flight client, and
build the bearer interceptor for the engine client. -/
def connect (responses : List (Except GrpcStatus HandshakeResponse)) :
    Except ClientError ClientConn :=
  match clientHandshake responses with
  | .error e => .error e
  | .ok payload =>
    if utf8Valid payload then
      match BearerAuth.try_new payload with
      | .error e => .error e
      | .ok header => .ok { flight_token := payload, auth_header := header }
    else .error .invalidToken

/-- A gRPC request's metadata map. -/
structure GrpcRequest where
  metadata : List (String × RustString)
deriving DecidableEq

/-- `Interceptor::call` for `BearerAuth`: insert the `authorization` header
(replacing any previous value) and pass the request on. -/
def BearerAuth.call (auth_header : RustString) (req : GrpcRequest) : GrpcRequest :=
  { req with metadata :=
      ("authorization", auth_header) ::
        req.metadata.filter (fun p => p.1 != "authorization") }

/-- Metadata lookup. -/
def GrpcRequest.header (req : GrpcRequest) (k : String) : Option RustString :=
  (req.metadata.find? (fun p => p.1 == k)).map Prod.snd

/-- The wire `TableRef` (`gen::TableRef`): optional catalog and schema plus
the table name. -/
structure GenTableRef where
  catalog : Option String
  schema : Option String
  table : String
deriving DecidableEq

/-- The wire `TableInfo` message, opaque bytes to the client. -/
structure GenTableInfo where
  payload : List Nat
deriving DecidableEq

/-- The decoded engine-side `TableInfo`; its contents are opaque here. -/
structure TableInfo where
  payload : List Nat
deriving DecidableEq

/-- A `GetTable` response: optional echoed table ref and optional info. -/
structure GetTableResp where
  table : Option GenTableRef
  info : Option GenTableInfo
deriving DecidableEq

/-- What `SynapseClient::get_table` does with a response: `Ok(Some(..))`,
`Ok(None)`, an `Err` from info decoding, or the `panic!` on a
mixed-population response (a protocol violation, not a normal return). -/
inductive GetTableResult
  | found (table : GenTableRef) (info : TableInfo)
  | absent
  | decodeFailed (e : ClientError)
  | protocolViolation
deriving DecidableEq

/-- The response-processing match of `SynapseClient::get_table`, with the
wire-info decoder (`TryInto<TableInfo>`, implemented outside the provided
sources) passed in as a function. -/
def get_table (decodeInfo : GenTableInfo → Except ClientError TableInfo)
    (resp : GetTableResp) : GetTableResult :=
  match resp.table, resp.info with
  | some t, some i =>
    match decodeInfo i with
    | .ok v => .found t v
    | .error e => .decodeFailed e
  | none, none => .absent
  | _, _ => .protocolViolation

/-- Modelled from the spec: the external arrow-flight `SqlInfoList`, an
ordered association of info codes to values. -/
structure SqlInfoList where
  entries : List (Nat × String)
deriving DecidableEq

/-- `SqlInfoList::new()`. -/
def SqlInfoList.new : SqlInfoList := ⟨[]⟩

/-- `SqlInfoList::with_sql_info`: bind a code to a value, replacing any
previous binding for that code. -/
def SqlInfoList.with_sql_info (l : SqlInfoList) (code : Nat) (value : String) :
    SqlInfoList :=
  ⟨l.entries.filter (fun p => p.1 != code) ++ [(code, value)]⟩

/-- Modelled from the spec: "Filter the static SQL-info list by the
requested info codes" — keep the entries whose code was requested. -/
def SqlInfoList.filterInfo (l : SqlInfoList) (info : List Nat) : SqlInfoList :=
  ⟨l.entries.filter (fun p => info.contains p.1)⟩

/-- `SqlInfo::FlightSqlServerName` wire code. -/
def flightSqlServerName : Nat := 0

/-- `SqlInfo::FlightSqlServerVersion` wire code. -/
def flightSqlServerVersion : Nat := 1

/-- `SqlInfo::FlightSqlServerArrowVersion` wire code. -/
def flightSqlServerArrowVersion : Nat := 2

/-- The static `SQL_INFO` list: server name `"synapse"`, the crate version
(a build-time constant, passed as a parameter), and Arrow version `"1.3"`. -/
def sqlInfoStatic (serverVersion : String) : SqlInfoList :=
  ((SqlInfoList.new.with_sql_info flightSqlServerName "synapse").with_sql_info
      flightSqlServerVersion serverVersion).with_sql_info
    flightSqlServerArrowVersion "1.3"

/-- `do_get_sql_info`: the rows of the emitted batch are the static list
filtered by the requested codes. -/
def do_get_sql_info (serverVersion : String) (info : List Nat) :
    List (Nat × String) :=
  ((sqlInfoStatic serverVersion).filterInfo info).entries

/-- Total number of rows across a list of record batches. -/
def sumRows (batches : List RecordBatch) : Nat :=
  (batches.map RecordBatch.num_rows).sum

/-- Example fixtures used by the concrete witnesses. -/
def exCatalog : SynapseCatalog := ⟨["s"]⟩

def exCluster : SynapseCluster := ⟨[("c", exCatalog)]⟩

def exConfig : SynapseConfig := ⟨"c", "s", []⟩

def exState : SynapseState := ⟨exCluster, exConfig⟩

def exCtx : SynapseContext := ⟨exState, none⟩

def exSchema : ArrowSchema := ⟨["a"]⟩

def exTask : Task := ⟨exSchema, false, none, none⟩

def exTracker : TicketTracker := ⟨[([1, 2], exTask)]⟩

/-! ## Theorems -/

/-- **C2**: `use_catalog(c)` on a `SynapseContext` returns `Ok` when catalog
`c` exists in the cluster, and a subsequent `default_catalog()` then returns
`c` (with the rest of the session unchanged); when `c` does not exist it
returns `CatalogNotFound(c)` and the session config — default catalog and
default schema alike — is unchanged. -/
theorem use_catalog_correct (ctx : SynapseContext) (c : Id) :
    (∀ cat, ctx.state.cluster.catalog c = some cat →
      ∃ ctx', ctx.use_catalog c = (.ok ctx', ctx'.state) ∧
        ctx'.default_catalog = c ∧
        ctx'.state.default_schema = ctx.state.default_schema ∧
        ctx'.state.cluster = ctx.state.cluster) ∧
    (ctx.state.cluster.catalog c = none →
      ctx.use_catalog c = (.error (.CatalogNotFound c), ctx.state)) := by
  constructor
  · intro cat hcat
    refine ⟨{ ctx with
      state := ctx.state.with_config (ctx.state.config.withDefaultCatalog c) },
      ?_, rfl, rfl, rfl⟩
    simp only [SynapseContext.use_catalog, hcat]
  · intro hnone
    simp only [SynapseContext.use_catalog, hnone]

/-- Concrete instantiation of `use_catalog_correct`: switching to the
existing catalog `"c"` succeeds and updates the default; switching to
`"missing"` fails with `CatalogNotFound` and leaves the state alone. -/
theorem use_catalog_correct_witness :
    (∃ ctx', exCtx.use_catalog "c" = (.ok ctx', ctx'.state) ∧
      ctx'.default_catalog = "c" ∧
      ctx'.state.default_schema = exCtx.state.default_schema ∧
      ctx'.state.cluster = exCtx.state.cluster) ∧
    exCtx.use_catalog "missing" =
      (.error (.CatalogNotFound "missing"), exCtx.state) :=
  ⟨(use_catalog_correct exCtx "c").1 exCatalog (by decide),
    (use_catalog_correct exCtx "missing").2 (by decide)⟩

/-- **C10**: `use_schema(s)` fails with `CatalogNotFound` naming the
session's current default catalog whenever that catalog is absent from the
cluster, and with `SchemaNotFound(s)` when the catalog exists but the schema
does not; in both error cases the session state is unchanged, and on `Ok`
the default schema becomes `s` with the default catalog untouched. -/
theorem use_schema_correct (ctx : SynapseContext) (s : Id) :
    (ctx.state.cluster.catalog ctx.default_catalog = none →
      ctx.use_schema s =
        (.error (.CatalogNotFound ctx.default_catalog), ctx.state)) ∧
    (∀ cat, ctx.state.cluster.catalog ctx.default_catalog = some cat →
      cat.schema s = none →
      ctx.use_schema s = (.error (.SchemaNotFound s), ctx.state)) ∧
    (∀ cat x, ctx.state.cluster.catalog ctx.default_catalog = some cat →
      cat.schema s = some x →
      ∃ ctx', ctx.use_schema s = (.ok ctx', ctx'.state) ∧
        ctx'.default_schema = s ∧
        ctx'.state.default_catalog = ctx.state.default_catalog ∧
        ctx'.state.cluster = ctx.state.cluster) := by
  refine ⟨?_, ?_, ?_⟩
  · intro hnone
    have h : ctx.state.cluster.catalog ctx.state.default_catalog = none := hnone
    simp only [SynapseContext.use_schema, h]
    rfl
  · intro cat hcat hs
    have h : ctx.state.cluster.catalog ctx.state.default_catalog = some cat := hcat
    simp only [SynapseContext.use_schema, h, hs]
  · intro cat x hcat hs
    have h : ctx.state.cluster.catalog ctx.state.default_catalog = some cat := hcat
    refine ⟨{ ctx with
      state := ctx.state.with_config (ctx.state.config.withDefaultSchema s) },
      ?_, rfl, rfl, rfl⟩
    simp only [SynapseContext.use_schema, h, hs]

/-- Concrete instantiation of `use_schema_correct`: with default catalog
`"c"` present, `use_schema "s"` succeeds; `use_schema "nope"` is
`SchemaNotFound`; with the absent default catalog `"gone"`, `use_schema`
fails with `CatalogNotFound "gone"`. -/
theorem use_schema_correct_witness :
    (∃ ctx', exCtx.use_schema "s" = (.ok ctx', ctx'.state) ∧
      ctx'.default_schema = "s" ∧
      ctx'.state.default_catalog = exCtx.state.default_catalog ∧
      ctx'.state.cluster = exCtx.state.cluster) ∧
    exCtx.use_schema "nope" = (.error (.SchemaNotFound "nope"), exCtx.state) ∧
    SynapseContext.use_schema ⟨⟨exCluster, ⟨"gone", "s", []⟩⟩, none⟩ "s" =
      (.error (.CatalogNotFound "gone"),
        (⟨⟨exCluster, ⟨"gone", "s", []⟩⟩, none⟩ : SynapseContext).state) :=
  ⟨(use_schema_correct exCtx "s").2.2 exCatalog "s" (by decide) (by decide),
    (use_schema_correct exCtx "nope").2.1 exCatalog (by decide) (by decide),
    (use_schema_correct ⟨⟨exCluster, ⟨"gone", "s", []⟩⟩, none⟩ "s").1 (by decide)⟩

/-- With an empty engine slot, every `shutdown` call is a no-op returning
`Ok`. -/
lemma runShutdowns_engine_none (ctx : SynapseContext) (h : ctx.engine = none) :
    ∀ n, runShutdowns ctx n = List.replicate n (.ok (), false) := by
  intro n
  induction n with
  | zero => rfl
  | succ n ih =>
    simp only [runShutdowns, SynapseContext.shutdownStep, h, List.replicate_succ]
    exact congrArg _ ih

/-- Filtering the teardown flag out of a run of no-op calls gives nothing. -/
lemma filter_ran_replicate (n : Nat) :
    (List.replicate n ((Except.ok (), false) : Except EngineError Unit × Bool)).filter
        (fun r => r.2) = [] := by
  induction n with
  | zero => rfl
  | succ n ih => simp [List.replicate_succ, ih]

/-- **C3**: `SynapseContext::shutdown` is idempotent.  Across any sequence
of `shutdown` calls, the teardown (`Engine::shutdown`) executes at most
once; starting from a live engine, the first call extracts it (running the
teardown and returning its result) and every later call returns `Ok`
without running teardown; starting from an empty slot, every call returns
`Ok`. -/
theorem shutdown_idempotent (ctx : SynapseContext) (n : Nat) :
    ((runShutdowns ctx n).filter (fun r => r.2)).length ≤ 1 ∧
    (∀ e m, ctx.engine = some e →
      runShutdowns ctx (m + 1) =
        (e.shutdownResult, true) :: List.replicate m (.ok (), false)) ∧
    (ctx.engine = none → runShutdowns ctx n = List.replicate n (.ok (), false)) := by
  have hstep : ∀ e m, ctx.engine = some e →
      runShutdowns ctx (m + 1) =
        (e.shutdownResult, true) :: List.replicate m (.ok (), false) := by
    intro e m he
    simp only [runShutdowns, SynapseContext.shutdownStep, he]
    exact congrArg _ (runShutdowns_engine_none { ctx with engine := none } rfl m)
  refine ⟨?_, hstep, fun h => runShutdowns_engine_none ctx h n⟩
  cases he : ctx.engine with
  | none =>
    rw [runShutdowns_engine_none ctx he n, filter_ran_replicate]
    exact Nat.zero_le 1
  | some e =>
    cases n with
    | zero => exact Nat.zero_le 1
    | succ m =>
      rw [hstep e m he]
      simp [filter_ran_replicate]

/-- Concrete instantiation of `shutdown_idempotent`: three consecutive
shutdown calls on a context holding a live engine run the teardown exactly
once, and the later calls return `Ok`. -/
theorem shutdown_idempotent_witness :
    ((runShutdowns ⟨exState, some ⟨.ok ()⟩⟩ 3).filter (fun r => r.2)).length ≤ 1 ∧
    runShutdowns ⟨exState, some ⟨.ok ()⟩⟩ (2 + 1) =
      (Except.ok (), true) :: List.replicate 2 (.ok (), false) ∧
    runShutdowns ⟨exState, none⟩ 3 = List.replicate 3 (.ok (), false) :=
  ⟨(shutdown_idempotent ⟨exState, some ⟨.ok ()⟩⟩ 3).1,
    (shutdown_idempotent ⟨exState, some ⟨.ok ()⟩⟩ 3).2.1 ⟨.ok ()⟩ 2 rfl,
    (shutdown_idempotent ⟨exState, none⟩ 3).2.2 rfl⟩

/-- A list of tracker entries with no entry for `t` is left unchanged by
`takeAssoc`, which finds nothing. -/
lemma takeAssoc_absent (t : TicketBytes) :
    ∀ l : List (TicketBytes × Task), l.any (fun p => decide (p.1 = t)) = false →
      takeAssoc l t = (none, l) := by
  intro l
  induction l with
  | nil => intro _; rfl
  | cons p ps ih =>
    intro h
    simp only [List.any_cons, Bool.or_eq_false_iff, decide_eq_false_iff_not] at h
    simp only [takeAssoc, if_neg h.1, ih h.2]

/-- When an entry for `t` is present, `takeAssoc` returns the first bound
task and removes exactly that entry, leaving both sides of the split. -/
lemma takeAssoc_present (t : TicketBytes) :
    ∀ l : List (TicketBytes × Task), l.any (fun p => decide (p.1 = t)) = true →
      ∃ task l1 l2, takeAssoc l t = (some task, l1 ++ l2) ∧
        l = l1 ++ (t, task) :: l2 ∧
        l1.any (fun p => decide (p.1 = t)) = false := by
  intro l
  induction l with
  | nil => intro h; cases h
  | cons p ps ih =>
    intro h
    by_cases hp : p.1 = t
    · refine ⟨p.2, [], ps, ?_, ?_, rfl⟩
      · simp only [takeAssoc, if_pos hp, List.nil_append]
      · rw [List.nil_append, ← hp]
    · have hps : ps.any (fun p => decide (p.1 = t)) = true := by
        simpa [List.any_cons, hp] using h
      obtain ⟨task, l1, l2, h1, h2, h3⟩ := ih hps
      refine ⟨task, p :: l1, l2, ?_, ?_, ?_⟩
      · simp only [takeAssoc, if_neg hp, h1, List.cons_append]
      · rw [List.cons_append, h2]
      · simp [List.any_cons, hp, h3]

/-- A ticket key is bound in the tracker iff it occurs among the keys. -/
lemma any_key_eq_false (t : TicketBytes) (l : List (TicketBytes × Task)) :
    l.any (fun p => decide (p.1 = t)) = false ↔ t ∉ l.map Prod.fst := by
  rw [Bool.eq_false_iff]
  simp only [ne_eq, List.any_eq_true, decide_eq_true_eq, List.mem_map]

/-- Eviction and `take_ticket` leave the same tracker behind. -/
lemma evict_eq_take_ticket_snd (tr : TicketTracker) (t : TicketBytes) :
    tr.evict t = (take_ticket tr t).2 := by
  cases h : tr.take t with
  | mk r tr' => cases r <;> simp [TicketTracker.evict, take_ticket, h]

/-- **C1**: one-shot tickets.  On a well-formed tracker, a `DoGet`
presenting a bound ticket consumes it: the task is returned for streaming,
the ticket is removed atomically, and a second `DoGet` with the same ticket
answers `not_found`.  A `DoGet` presenting a ticket absent from the tracker
(never inserted, evicted, or already consumed) answers `not_found` and
leaves the tracker unchanged; an evicted ticket is indeed no longer
bound. -/
theorem ticket_take_once (tr : TicketTracker) (t : TicketBytes) (hwf : tr.WF) :
    (tr.hasTicket t = true →
      ∃ task tr', take_ticket tr t = (.stream task, tr') ∧
        (t, task) ∈ tr.tasks ∧ tr'.hasTicket t = false ∧
        take_ticket tr' t = (.notFound, tr')) ∧
    (tr.hasTicket t = false → take_ticket tr t = (.notFound, tr)) ∧
    (tr.evict t).hasTicket t = false := by
  have habs : ∀ tr0 : TicketTracker, tr0.hasTicket t = false →
      take_ticket tr0 t = (.notFound, tr0) := by
    intro tr0 h0
    have h1 := takeAssoc_absent t tr0.tasks h0
    simp only [take_ticket, TicketTracker.take, h1]
  have hpres : tr.hasTicket t = true →
      ∃ task tr', take_ticket tr t = (.stream task, tr') ∧
        (t, task) ∈ tr.tasks ∧ tr'.hasTicket t = false ∧
        take_ticket tr' t = (.notFound, tr') := by
    intro hp
    obtain ⟨task, l1, l2, h1, h2, h3⟩ := takeAssoc_present t tr.tasks hp
    have hnd : ((l1 ++ (t, task) :: l2).map Prod.fst).Nodup := by
      rw [← h2]; exact hwf
    simp only [List.map_append, List.map_cons] at hnd
    have hkeys : t ∉ (l1 ++ l2).map Prod.fst := by
      intro hmem
      rw [List.map_append] at hmem
      rcases List.mem_append.mp hmem with h4 | h4
      · exact (List.disjoint_of_nodup_append hnd) h4 (List.mem_cons_self _ _)
      · exact (List.nodup_cons.mp (List.Nodup.of_append_right hnd)).1 h4
    have hfalse : TicketTracker.hasTicket ⟨l1 ++ l2⟩ t = false :=
      (any_key_eq_false t (l1 ++ l2)).mpr hkeys
    refine ⟨task, ⟨l1 ++ l2⟩, ?_, ?_, hfalse, habs _ hfalse⟩
    · simp only [take_ticket, TicketTracker.take, h1]
    · rw [h2]; exact List.mem_append.mpr (Or.inr (List.mem_cons_self _ _))
  refine ⟨hpres, habs tr, ?_⟩
  rw [evict_eq_take_ticket_snd]
  cases hht : tr.hasTicket t with
  | false => rw [habs tr hht]; exact hht
  | true =>
    obtain ⟨task, tr', he, _, hfalse, _⟩ := hpres hht
    rw [he]
    exact hfalse

/-- Concrete instantiation of `ticket_take_once`: a tracker holding ticket
`[1, 2]` serves it once (second `DoGet` is `not_found`), answers
`not_found` for the never-inserted ticket `[9]`, and no longer binds an
evicted ticket. -/
theorem ticket_take_once_witness :
    (∃ task tr', take_ticket exTracker [1, 2] = (.stream task, tr') ∧
      ([1, 2], task) ∈ exTracker.tasks ∧ tr'.hasTicket [1, 2] = false ∧
      take_ticket tr' [1, 2] = (.notFound, tr')) ∧
    take_ticket exTracker [9] = (.notFound, exTracker) ∧
    (exTracker.evict [1, 2]).hasTicket [1, 2] = false :=
  ⟨(ticket_take_once exTracker [1, 2] (by decide)).1 (by decide),
    (ticket_take_once exTracker [9] (by decide)).2.1 (by decide),
    (ticket_take_once exTracker [1, 2] (by decide)).2.2⟩

/-- **C4**: `GetFlightInfo(Statement)` on a query accepted by `put_sql`
returns a `FlightInfo` carrying the task's result schema and exactly one
endpoint, whose ticket is the encoded `TicketStatementQuery` wrapping the
tracker's ticket bytes; orderedness is taken from the task, and the
total-records (resp. total-bytes) field carries the task's `num_rows`
(resp. `byte_size`) when reported and stays at the unknown sentinel `-1`
otherwise. -/
theorem flight_info_statement_correct (ticket : TicketBytes) (task : Task)
    (d : FlightDescriptor) :
    (get_flight_info_statement ticket task d).schema = some task.schema ∧
    (get_flight_info_statement ticket task d).endpoints =
      [{ ticket := some (.ticketStatementQuery ticket), location := [] }] ∧
    (get_flight_info_statement ticket task d).ordered = task.ordered ∧
    (get_flight_info_statement ticket task d).total_records =
      (match task.num_rows with | some r => i64OfU64 r | none => -1) ∧
    (get_flight_info_statement ticket task d).total_bytes =
      (match task.byte_size with | some b => i64OfU64 b | none => -1) ∧
    (get_flight_info_statement ticket task d).descriptor = some d := by
  obtain ⟨s, o, nr, bs⟩ := task
  cases nr <;> cases bs <;>
    exact ⟨rfl, rfl, rfl, rfl, rfl, rfl⟩

/-- The ingestion loop accumulates the total row count and sends the
batches in stream order. -/
lemma copy_loop_spec (target : String) :
    ∀ (batches : List RecordBatch) (acc : Nat),
      copy_loop target batches acc =
        (acc + sumRows batches, batches.map (PublishEvent.send target)) := by
  intro batches
  induction batches with
  | nil => intro acc; simp [copy_loop, sumRows]
  | cons b bs ih =>
    intro acc
    simp [copy_loop, ih, sumRows, List.map_cons, Nat.add_assoc]

/-- `i64OfU64` is the identity below `2 ^ 63`. -/
lemma i64OfU64_small (n : Nat) (h : n < 2 ^ 63) : i64OfU64 n = n := by
  have h64 : n % 2 ^ 64 = n := Nat.mod_eq_of_lt (lt_trans h (by norm_num))
  unfold i64OfU64
  rw [h64, if_pos h]

/-- **C5**: `DoPut(StatementUpdate)` on `COPY this TO <topic>` sends each
incoming batch, in stream order, to the target topic's publisher, awaits
`flush` after the last batch, and returns the total row count of the
batches as the update result. -/
theorem copy_to_topic_correct (topics : List String) (target : String)
    (batches : List RecordBatch)
    (htopic : topics.contains target = true)
    (hfit : sumRows batches < 2 ^ 63) :
    do_put_statement_update topics
        (some (.copyTo (.relation [Ident.new "this"]) target)) batches =
      (.ok (sumRows batches : Int),
        batches.map (PublishEvent.send target) ++ [.flush target]) := by
  simp only [do_put_statement_update, if_pos rfl, htopic, if_pos,
    copy_loop_spec, Nat.zero_add, i64OfU64_small (sumRows batches) hfit]

/-- Concrete instantiation of `copy_to_topic_correct` (scenario S5): three
batches of 10, 20 and 30 rows copied into `c.s.topic` are all sent in
order, flushed, and the update result is 60. -/
theorem copy_to_topic_correct_witness :
    do_put_statement_update ["c.s.topic"]
        (some (.copyTo (.relation [Ident.new "this"]) "c.s.topic"))
        [⟨10, []⟩, ⟨20, []⟩, ⟨30, []⟩] =
      (.ok 60,
        [.send "c.s.topic" ⟨10, []⟩, .send "c.s.topic" ⟨20, []⟩,
          .send "c.s.topic" ⟨30, []⟩, .flush "c.s.topic"]) := by
  have h := copy_to_topic_correct ["c.s.topic"] "c.s.topic"
    [⟨10, []⟩, ⟨20, []⟩, ⟨30, []⟩] (by decide) (by decide)
  simpa using h

/-- **C9**: `DoPut(StatementUpdate)` accepts only `COPY this TO <topic>`
with source the single unquoted identifier `this`; every other parsed
statement form makes the handler abort (the reserved `todo!()` branch)
without publishing any batch to any topic. -/
theorem update_rejects_non_copy_this (topics : List String) (stmt : Statement)
    (batches : List RecordBatch)
    (h : ∀ target, stmt ≠ .copyTo (.relation [Ident.new "this"]) target) :
    do_put_statement_update topics (some stmt) batches = (.panicked, []) := by
  cases stmt with
  | copyTo source target =>
    cases source with
    | relation idents =>
      by_cases hid : idents = [Ident.new "this"]
      · exact absurd (by rw [hid]) (h target)
      · simp [do_put_statement_update, hid]
    | query => rfl
  | otherStatement => rfl

/-- Concrete instantiation of `update_rejects_non_copy_this`: a non-COPY
statement is rejected with no publish events. -/
theorem update_rejects_non_copy_this_witness :
    do_put_statement_update ["c.s.topic"] (some .otherStatement)
        [⟨10, []⟩] = (.panicked, []) :=
  update_rejects_non_copy_this ["c.s.topic"] .otherStatement [⟨10, []⟩]
    (fun _ hne => Statement.noConfusion hne)

/-- **C6**: the handshake issues the bearer token.  The server's response
stream contains exactly one `HandshakeResponse`, whose payload is the token
the client ends up holding, and the connected client presents that same
token — as `authorization: Bearer <token>` — on every subsequent call
through its interceptor. -/
theorem handshake_token_correct (req : GrpcRequest) :
    do_handshake.length = 1 ∧
    ∀ conn, connect do_handshake = .ok conn →
      do_handshake =
        [.ok { protocol_version := 0, payload := conn.flight_token }] ∧
      conn.auth_header = bearerBytes ++ conn.flight_token ∧
      (BearerAuth.call conn.auth_header req).header "authorization" =
        some (bearerBytes ++ conn.flight_token) := by
  refine ⟨rfl, ?_⟩
  intro conn hc
  have hc' : (Except.ok { flight_token := [], auth_header := bearerBytes } :
      Except ClientError ClientConn) = .ok conn := hc
  injection hc' with h
  subst h
  exact ⟨rfl, rfl, rfl⟩

/-- Concrete instantiation of `handshake_token_correct` at the connection
the client actually establishes (the empty token) and an empty request. -/
theorem handshake_token_correct_witness :
    do_handshake.length = 1 ∧
    (do_handshake =
        [.ok ⟨0, (⟨[], bearerBytes⟩ : ClientConn).flight_token⟩] ∧
      (⟨[], bearerBytes⟩ : ClientConn).auth_header =
        bearerBytes ++ (⟨[], bearerBytes⟩ : ClientConn).flight_token ∧
      (BearerAuth.call (⟨[], bearerBytes⟩ : ClientConn).auth_header ⟨[]⟩).header
          "authorization" =
        some (bearerBytes ++ (⟨[], bearerBytes⟩ : ClientConn).flight_token)) :=
  ⟨(handshake_token_correct ⟨[]⟩).1,
    (handshake_token_correct ⟨[]⟩).2 ⟨[], bearerBytes⟩ rfl⟩

/-- **C7**: `get_table` response handling.  A response with both fields
populated (and decodable info) yields `Some`, built from the echoed table
ref and the decoded info; a response with both fields absent yields `None`;
a response with exactly one field populated is a protocol violation
(`panic!`), not a normal `Some`/`None` return.  Conversely a `Some` return
only arises from a fully populated response. -/
theorem get_table_correct
    (decodeInfo : GenTableInfo → Except ClientError TableInfo)
    (resp : GetTableResp) :
    (∀ t i v, resp.table = some t → resp.info = some i →
      decodeInfo i = .ok v → get_table decodeInfo resp = .found t v) ∧
    (resp.table = none → resp.info = none →
      get_table decodeInfo resp = .absent) ∧
    (resp.table.isSome ≠ resp.info.isSome →
      get_table decodeInfo resp = .protocolViolation) ∧
    (∀ t v, get_table decodeInfo resp = .found t v →
      resp.table = some t ∧ ∃ i, resp.info = some i ∧ decodeInfo i = .ok v) := by
  obtain ⟨tb, inf⟩ := resp
  refine ⟨?_, ?_, ?_, ?_⟩
  · rintro t i v rfl rfl hdec
    simp [get_table, hdec]
  · rintro rfl rfl
    rfl
  · intro hmix
    cases tb <;> cases inf
    · exact absurd rfl hmix
    · rfl
    · rfl
    · exact absurd rfl hmix
  · intro t v hf
    cases tb with
    | none => cases inf <;> simp [get_table] at hf
    | some t' =>
      cases inf with
      | none => simp [get_table] at hf
      | some i' =>
        cases hdec : decodeInfo i' with
        | error e =>
          rw [show get_table decodeInfo ⟨some t', some i'⟩ = .decodeFailed e
            from by simp [get_table, hdec]] at hf
          cases hf
        | ok v' =>
          rw [show get_table decodeInfo ⟨some t', some i'⟩ = .found t' v'
            from by simp [get_table, hdec]] at hf
          injection hf with h1 h2
          exact ⟨by rw [h1], ⟨i', rfl, by rw [hdec, h2]⟩⟩

/-- Concrete instantiation of `get_table_correct`: fully populated → found;
fully empty → absent; mixed → protocol violation. -/
theorem get_table_correct_witness :
    get_table (fun i => .ok ⟨i.payload⟩)
        ⟨some ⟨none, none, "t"⟩, some ⟨[7]⟩⟩ =
      .found ⟨none, none, "t"⟩ ⟨[7]⟩ ∧
    get_table (fun i => .ok ⟨i.payload⟩) ⟨none, none⟩ = .absent ∧
    get_table (fun i => .ok ⟨i.payload⟩) ⟨some ⟨none, none, "t"⟩, none⟩ =
      .protocolViolation :=
  ⟨(get_table_correct (fun i => .ok ⟨i.payload⟩)
        ⟨some ⟨none, none, "t"⟩, some ⟨[7]⟩⟩).1
      ⟨none, none, "t"⟩ ⟨[7]⟩ ⟨[7]⟩ rfl rfl rfl,
    (get_table_correct (fun i => .ok ⟨i.payload⟩) ⟨none, none⟩).2.1 rfl rfl,
    (get_table_correct (fun i => .ok ⟨i.payload⟩)
        ⟨some ⟨none, none, "t"⟩, none⟩).2.2.1 (by decide)⟩

/-- **C8**: `DoGet(GetSqlInfo)` emits the static SQL-info list filtered to
exactly the requested codes; the static list binds the server name to
`"synapse"`, so requesting `FlightSqlServerName` yields the single row
`(FlightSqlServerName, "synapse")`. -/
theorem sql_info_filter_correct (serverVersion : String) (info : List Nat) :
    do_get_sql_info serverVersion info =
      (sqlInfoStatic serverVersion).entries.filter
        (fun p => info.contains p.1) ∧
    (sqlInfoStatic serverVersion).entries =
      [(flightSqlServerName, "synapse"), (flightSqlServerVersion, serverVersion),
        (flightSqlServerArrowVersion, "1.3")] ∧
    do_get_sql_info serverVersion [flightSqlServerName] =
      [(flightSqlServerName, "synapse")] :=
  ⟨rfl, rfl, rfl⟩

end Synapse
